import Mathlib

/-!
# Verification of the nanoclaw WebChannel adapter

Shallow embedding of the two WebChannel implementations found in the
repository:

* `WebTs` — `src/channels/web.ts` (the channel file of the repository);
* `WebSkill` — the copy of `web.ts` shipped inside the `add-claw-chat`
  skill package (together with its unit tests and the env-reading
  constructor).

JS strings are embedded as Lean `String`; the JS method
`s.startsWith(p)` is embedded as the character-sequence prefix test
`p.data.isPrefixOf s.data`, and `s.slice(4)` as `String.drop s 4`.
The HTTP layer is embedded as oracles (`Except HttpErr`-valued
functions); the requests an operation issues are returned as an explicit
trace, and JS exceptions are `Except.error` values, so "never raises"
is "the result is `Except.ok` for every oracle".
-/

namespace Nanoclaw

/-- Embedding of the JS string method `s.startsWith(p)`:
the character sequence of `p` is a prefix of that of `s`. -/
def jsStartsWith (s p : String) : Bool :=
  p.data.isPrefixOf s.data

/-- JS `a || b` on strings: the empty string is falsy, `undefined`
(modelled as `none`) is falsy. -/
def orElseStr (a : Option String) (b : String) : String :=
  match a with
  | none => b
  | some s => if s = "" then b else s

/-- Failure of an HTTP call: a transport error or a non-2xx status
(the adapter treats both uniformly, via a thrown `Error`). -/
inductive HttpErr where
  | network
  | status (code : Nat)
deriving DecidableEq, Repr

/-- A wall-clock instant, as the components printed by
`Date.prototype.toISOString`. -/
structure DateTime where
  year : Nat
  month : Nat
  day : Nat
  hour : Nat
  minute : Nat
  second : Nat
  millisecond : Nat
deriving DecidableEq, Repr

/-- Component bounds under which a `DateTime` denotes a printable
calendar instant. -/
def validDate (t : DateTime) : Bool :=
  t.year < 10000 && 1 ≤ t.month && t.month ≤ 12 && 1 ≤ t.day && t.day ≤ 31 &&
    t.hour < 24 && t.minute < 60 && t.second < 60 && t.millisecond < 1000

/-- Decimal rendering of a component, zero-padded to two digits. -/
def pad2 (n : Nat) : String :=
  if n < 10 then "0" ++ toString n else toString n

/-- Decimal rendering of the millisecond component, zero-padded to three
digits. -/
def pad3 (n : Nat) : String :=
  if n < 10 then "00" ++ toString n
  else if n < 100 then "0" ++ toString n
  else toString n

/-- Decimal rendering of the year, zero-padded to four digits. -/
def pad4 (n : Nat) : String :=
  if n < 10 then "000" ++ toString n
  else if n < 100 then "00" ++ toString n
  else if n < 1000 then "0" ++ toString n
  else toString n

/-- Modelled from the spec: the platform primitive
`Date.prototype.toISOString` (not part of the repository) prints the
instant as `YYYY-MM-DDTHH:mm:ss.sssZ`. -/
def toISOString (t : DateTime) : String :=
  pad4 t.year ++ "-" ++ pad2 t.month ++ "-" ++ pad2 t.day ++ "T" ++
    pad2 t.hour ++ ":" ++ pad2 t.minute ++ ":" ++ pad2 t.second ++ "." ++
    pad3 t.millisecond ++ "Z"

/-- A string is a well-formed timestamp when it is the ISO rendering of
some valid wall-clock instant. -/
def WellFormedTimestamp (s : String) : Prop :=
  ∃ t : DateTime, validDate t = true ∧ s = toISOString t

/-- Hexadecimal digit character (lower case, as printed by the
platform's UUID generator). -/
def hexDigit (n : Nat) : Char :=
  if n < 10 then Char.ofNat (48 + n) else Char.ofNat (87 + n)

/-- `k`-digit big-endian hexadecimal rendering of `n`. -/
def hexN (k : Nat) (n : Nat) : String :=
  ⟨(List.range k).map fun i => hexDigit (n / 16 ^ (k - 1 - i) % 16)⟩

/-- Modelled from the spec: the platform primitive `crypto.randomUUID`
(not part of the repository) renders the call's fresh randomness in the
hyphenated 8-4-4-4-12 hexadecimal RFC 4122 format. -/
def randomUUID (seed : Nat) : String :=
  hexN 8 (seed / 16 ^ 28) ++ "-" ++ hexN 4 (seed / 16 ^ 24) ++ "-" ++
    hexN 4 (seed / 16 ^ 20) ++ "-" ++ hexN 4 (seed / 16 ^ 16) ++ "-" ++ hexN 12 seed

/-! ## Shared data model (`src/types.ts` shapes as used by the channel) -/

/-- The host's durable record of a tracked conversation, as the channel
synthesizes it for `registerGroup`. -/
structure RegisteredGroup where
  name : String
  folder : String
  trigger : String
  requiresTrigger : Bool
  added_at : String
deriving DecidableEq, Repr

/-- The canonical message record handed to the host's inbound-message
callback.  `src/channels/web.ts` builds it without an `is_bot_message`
field (`none`); the skill copy sets it to `false`. -/
structure NewMessage where
  id : String
  chat_jid : String
  sender : String
  sender_name : String
  content : String
  timestamp : String
  is_from_me : Bool
  is_bot_message : Option Bool
deriving DecidableEq, Repr

/-- One registration in the `/api/internal/pending` response. -/
structure Registration where
  conversationId : String
  name : String
  folder : String
deriving DecidableEq, Repr

/-- One message in the `/api/internal/pending` response.  `senderName`
is `Option`-valued because both implementations guard against a missing
value (`?? 'User'` respectively `|| 'You'`). -/
structure PendingMessage where
  id : String
  conversationId : String
  senderName : Option String
  content : String
  createdAt : String
deriving DecidableEq, Repr

/-- The `/api/internal/pending` response body. -/
structure Pending where
  registrations : List Registration
  messages : List PendingMessage
deriving DecidableEq, Repr

/-- A host-callback invocation performed during a poll cycle, in
invocation order. -/
inductive Event where
  | chatMetadata (jid : String) (timestamp : String) (name : Option String)
      (channel : String) (flag : Bool)
  | registerGroup (jid : String) (group : RegisteredGroup)
  | onMessage (jid : String) (msg : NewMessage)
deriving DecidableEq, Repr

/-- The body of the `/api/internal/ack` POST. -/
structure AckBody where
  conversationIds : List String
  messageIds : List String
deriving DecidableEq, Repr

/-- Observable outcome of one `poll()` run: the callback invocations and
the ack POSTs issued (the code issues at most one). -/
structure PollOut where
  events : List Event
  acks : List AckBody
deriving DecidableEq, Repr

/-- Outcome of the registration sub-step of a poll: the host registry
after the step, the callback invocations, and the conversationIds
collected for acknowledgement. -/
structure RegPhase where
  hostGroups : List String
  events : List Event
  ackIds : List String
deriving DecidableEq, Repr

/-- Outcome of the message sub-step of a poll: the callback invocations
and the message ids collected for acknowledgement. -/
structure MsgPhase where
  events : List Event
  ackIds : List String
deriving DecidableEq, Repr

/-- Modelled from the spec: the host's `registerGroup` callback
(`src/index.ts`, not among the source files) records the group, so a
subsequent `registeredGroups()` read includes the jid.  The registry is
modelled by its key set. -/
def hostRegister (groups : List String) (jid : String) : List String :=
  jid :: groups

/-- The body of the `/api/internal/deliver` POST. -/
structure DeliverBody where
  id : String
  conversationId : String
  content : String
  createdAt : String
deriving DecidableEq, Repr

/-- The body of the `/api/internal/typing` POST. -/
structure TypingBody where
  conversationId : String
  isTyping : Bool
deriving DecidableEq, Repr

/-- The `'running' | 'idle' | 'error'` status union of
`pushContainerStatus`. -/
inductive ContainerStatus where
  | running
  | idle
  | error
deriving DecidableEq, Repr

/-- The body of the `/api/internal/container-status` POST; the `error`
key is spread in only when the argument is truthy. -/
structure ContainerStatusBody where
  conversationId : String
  status : ContainerStatus
  error : Option String
deriving DecidableEq, Repr

/-- A node of the workspace file tree (`src/workspace.ts`). -/
inductive FileEntry where
  | file (name : String)
  | dir (name : String) (children : List FileEntry)

/-- The body of the `/api/internal/workspace-snapshot` POST. -/
structure WorkspaceSnapshotBody where
  conversationId : String
  tree : List FileEntry

/-! ## `src/channels/web.ts` — the repository's channel file -/

namespace WebTs

/-- `ownsJid(jid) = jid.startsWith('web:')` — a pure predicate, no
network or adapter-state access. -/
def ownsJid (jid : String) : Bool :=
  jsStartsWith jid "web:"

/-- `sendMessage(jid, text)`: builds the delivery record and POSTs it to
`/api/internal/deliver`.  The `await this.post(...)` is NOT wrapped in a
`try`/`catch`, so the oracle's failure propagates to the caller.  Returns
the trace of deliver POSTs issued and the call's outcome. -/
def sendMessage (jid text : String) (seed : Nat) (now : DateTime)
    (deliver : DeliverBody → Except HttpErr Unit) :
    List DeliverBody × Except HttpErr Unit :=
  let body : DeliverBody :=
    { id := randomUUID seed
      conversationId := jid.drop 4
      content := text
      createdAt := toISOString now }
  ([body], deliver body)

/-- `setTyping(jid, isTyping)`: POSTs to `/api/internal/typing`; the
`.catch(...)` turns any failure into a logged warning. -/
def setTyping (jid : String) (isTyping : Bool)
    (post : TypingBody → Except HttpErr Unit) :
    List TypingBody × Except HttpErr Unit :=
  let body : TypingBody := { conversationId := jid.drop 4, isTyping := isTyping }
  ([body],
    match post body with
    | Except.ok _ => Except.ok ()
    | Except.error _ => Except.ok ())

/-- `pushContainerStatus`: returns at once when the jid is outside the
`web:` namespace; otherwise POSTs to `/api/internal/container-status`
with the `error` key spread in only when truthy, failures caught. -/
def pushContainerStatus (jid : String) (status : ContainerStatus)
    (error : Option String) (post : ContainerStatusBody → Except HttpErr Unit) :
    List ContainerStatusBody × Except HttpErr Unit :=
  if !jsStartsWith jid "web:" then ([], Except.ok ())
  else
    let body : ContainerStatusBody :=
      { conversationId := jid.drop 4
        status := status
        error := match error with
          | some e => if e = "" then none else some e
          | none => none }
    ([body],
      match post body with
      | Except.ok _ => Except.ok ()
      | Except.error _ => Except.ok ())

/-- `pushWorkspaceSnapshot`: returns at once when the jid is outside the
`web:` namespace; otherwise POSTs to `/api/internal/workspace-snapshot`,
failures caught. -/
def pushWorkspaceSnapshot (jid : String) (tree : List FileEntry)
    (post : WorkspaceSnapshotBody → Except HttpErr Unit) :
    List WorkspaceSnapshotBody × Except HttpErr Unit :=
  if !jsStartsWith jid "web:" then ([], Except.ok ())
  else
    let body : WorkspaceSnapshotBody := { conversationId := jid.drop 4, tree := tree }
    ([body],
      match post body with
      | Except.ok _ => Except.ok ()
      | Except.error _ => Except.ok ())

/-- The `for (const reg of data.registrations ?? [])` loop: the
registered-groups view is read afresh at each iteration
(`this.opts.registeredGroups()[jid]`); an unknown jid triggers
`onChatMetadata` then `registerGroup` (with `trigger: ''`,
`requiresTrigger: false`); the conversationId is pushed regardless. -/
def pollRegs (now : String) : List String → List Registration → RegPhase
  | groups, [] => { hostGroups := groups, events := [], ackIds := [] }
  | groups, reg :: rest =>
    let jid := "web:" ++ reg.conversationId
    if jid ∈ groups then
      let r := pollRegs now groups rest
      { r with ackIds := reg.conversationId :: r.ackIds }
    else
      let grp : RegisteredGroup :=
        { name := reg.name
          folder := reg.folder
          trigger := ""
          requiresTrigger := false
          added_at := now }
      let r := pollRegs now (hostRegister groups jid) rest
      { hostGroups := r.hostGroups
        events := Event.chatMetadata jid now (some reg.name) "web" false ::
          Event.registerGroup jid grp :: r.events
        ackIds := reg.conversationId :: r.ackIds }

/-- The `for (const msg of data.messages ?? [])` loop: every message is
translated and handed to `onMessage`, and its id is pushed — there is no
registered-groups check in this file. -/
def pollMsgs : List PendingMessage → MsgPhase
  | [] => { events := [], ackIds := [] }
  | msg :: rest =>
    let jid := "web:" ++ msg.conversationId
    let newMsg : NewMessage :=
      { id := msg.id
        chat_jid := jid
        sender := "user@" ++ jid
        sender_name := msg.senderName.getD "User"
        content := msg.content
        timestamp := msg.createdAt
        is_from_me := false
        is_bot_message := none }
    let r := pollMsgs rest
    { events := Event.onMessage jid newMsg :: r.events
      ackIds := msg.id :: r.ackIds }

/-- `poll()`: fetches `/api/internal/pending` (the whole body sits in a
`try` whose `catch` only logs, so a fetch failure yields no callbacks
and no ack, and `poll()` resolves); otherwise runs the two loops and —
when either id list is non-empty — issues one ack POST with both
lists. -/
def poll (groups : List String) (fetch : Except HttpErr Pending) (now : String) :
    PollOut :=
  match fetch with
  | Except.error _ => { events := [], acks := [] }
  | Except.ok data =>
    let r := pollRegs now groups data.registrations
    let m := pollMsgs data.messages
    { events := r.events ++ m.events
      acks :=
        if r.ackIds.length > 0 ∨ m.ackIds.length > 0 then
          [{ conversationIds := r.ackIds, messageIds := m.ackIds }]
        else [] }

/-- The adapter's mutable lifecycle state: the `polling` flag and the
`pollTimer` handle (`none` = `null`). -/
structure ChannelState where
  polling : Bool
  pollTimer : Option Unit
deriving DecidableEq, Repr

/-- State as the constructor leaves it: not polling, no timer. -/
def initialState : ChannelState :=
  { polling := false, pollTimer := none }

/-- `schedulePoll()`: returns at once when not polling, else arms the
timer. -/
def schedulePoll (s : ChannelState) : ChannelState :=
  if s.polling = false then s else { s with pollTimer := some () }

/-- `connect()`: sets the flag and schedules the first poll. -/
def connect (s : ChannelState) : ChannelState :=
  schedulePoll { s with polling := true }

/-- `disconnect()`: clears the flag; clears the timer when armed (when
it is already `null` the field is left as it was, which is the same
`none`). -/
def disconnect (s : ChannelState) : ChannelState :=
  { s with polling := false, pollTimer := none }

/-- Events the timer machinery can undergo after a point in time: the
armed timer fires (the poll runs and its `finally` calls
`schedulePoll`), or `disconnect()` is called again. -/
inductive TimerAct where
  | fire
  | disc
deriving DecidableEq, Repr

/-- One step of the timer machinery. -/
def timerStep (s : ChannelState) : TimerAct → ChannelState
  | TimerAct.fire =>
    match s.pollTimer with
    | some _ => schedulePoll { s with pollTimer := none }
    | none => s
  | TimerAct.disc => disconnect s

end WebTs

/-! ## The skill package's `web.ts` (shipped with its unit tests) -/

namespace WebSkill

/-- The configuration the constructor computes and stores (the poll
interval, untouched by any claim, is not modelled). -/
structure WebChannelConfig where
  baseUrl : String
  secret : String
deriving DecidableEq, Repr

/-- `.replace(/\/$/, '')`: removes a single trailing slash. -/
def stripTrailingSlash (s : String) : String :=
  if s.endsWith "/" then s.dropRight 1 else s

/-- The constructor: resolves the base URL and the shared secret from
`readEnvFile` and `process.env` with JS `||` defaulting, then throws
`'WEBUI_INTERNAL_SECRET must be set in .env'` when the resolved secret
is empty.  `none` models an unset variable. -/
def mkWebChannel (envUrl procUrl envSecret procSecret : Option String) :
    Except String WebChannelConfig :=
  let baseUrl :=
    stripTrailingSlash (orElseStr envUrl (orElseStr procUrl "http://localhost:3000"))
  let secret := orElseStr envSecret (orElseStr procSecret "")
  if secret = "" then Except.error "WEBUI_INTERNAL_SECRET must be set in .env"
  else Except.ok { baseUrl := baseUrl, secret := secret }

/-- `ownsJid(jid) = jid.startsWith('web:')`. -/
def ownsJid (jid : String) : Bool :=
  jsStartsWith jid "web:"

/-- `connect()`: the health probe sits in a `try`/`catch` that only
logs; afterwards the `connected` flag is set unconditionally.  Returns
the flag value and the call's outcome. -/
def connect (probe : Except HttpErr Unit) : Bool × Except HttpErr Unit :=
  match probe with
  | Except.ok _ => (true, Except.ok ())
  | Except.error _ => (true, Except.ok ())

/-- `sendMessage(jid, text)`: builds the same delivery record as the
repository file, but the POST sits in a `try`/`catch` that logs a
warning — the call resolves for every oracle. -/
def sendMessage (jid text : String) (seed : Nat) (now : DateTime)
    (deliver : DeliverBody → Except HttpErr Unit) :
    List DeliverBody × Except HttpErr Unit :=
  let body : DeliverBody :=
    { id := randomUUID seed
      conversationId := jid.drop 4
      content := text
      createdAt := toISOString now }
  ([body],
    match deliver body with
    | Except.ok _ => Except.ok ()
    | Except.error _ => Except.ok ())

/-- `setTyping(jid, isTyping)`: POST in a `try` with an empty `catch`. -/
def setTyping (jid : String) (isTyping : Bool)
    (post : TypingBody → Except HttpErr Unit) :
    List TypingBody × Except HttpErr Unit :=
  let body : TypingBody := { conversationId := jid.drop 4, isTyping := isTyping }
  ([body],
    match post body with
    | Except.ok _ => Except.ok ()
    | Except.error _ => Except.ok ())

/-- The registration loop: the registered-groups view is read ONCE into
`registeredGroups` before the loop (the snapshot), each registration is
checked against that snapshot, a new jid triggers `registerGroup` (with
`trigger: reg.folder`, `requiresTrigger: false`, no metadata callback),
and the conversationId is pushed regardless.  The host registry is
threaded separately, to be re-read after the loop. -/
def pollRegs (now : String) (snapshot : List String) :
    List String → List Registration → RegPhase
  | host, [] => { hostGroups := host, events := [], ackIds := [] }
  | host, reg :: rest =>
    let jid := "web:" ++ reg.conversationId
    if jid ∈ snapshot then
      let r := pollRegs now snapshot host rest
      { r with ackIds := reg.conversationId :: r.ackIds }
    else
      let grp : RegisteredGroup :=
        { name := reg.name
          folder := reg.folder
          trigger := reg.folder
          requiresTrigger := false
          added_at := now }
      let r := pollRegs now snapshot (hostRegister host jid) rest
      { hostGroups := r.hostGroups
        events := Event.registerGroup jid grp :: r.events
        ackIds := reg.conversationId :: r.ackIds }

/-- The message loop, against `currentGroups` (the view re-read after
the registration loop): an absent jid is logged and skipped — neither
callback fires and the id is not collected; a present jid triggers
`onChatMetadata` (name `undefined`) then `onMessage`, and the id is
collected. -/
def pollMsgs (currentGroups : List String) : List PendingMessage → MsgPhase
  | [] => { events := [], ackIds := [] }
  | msg :: rest =>
    let jid := "web:" ++ msg.conversationId
    if jid ∈ currentGroups then
      let newMsg : NewMessage :=
        { id := msg.id
          chat_jid := jid
          sender := msg.conversationId
          sender_name :=
            match msg.senderName with
            | none => "You"
            | some s => if s = "" then "You" else s
          content := msg.content
          timestamp := msg.createdAt
          is_from_me := false
          is_bot_message := some false }
      let r := pollMsgs currentGroups rest
      { events := Event.chatMetadata jid msg.createdAt none "web" false ::
          Event.onMessage jid newMsg :: r.events
        ackIds := msg.id :: r.ackIds }
    else
      pollMsgs currentGroups rest

/-- `poll()`: a failing pending fetch is caught and the function returns
at once (no callback, no ack); otherwise the registration loop runs
against the snapshot view, the registry is re-read (`currentGroups`),
the message loop runs against the re-read view, and — when either id
list is non-empty — one ack POST carries both lists. -/
def poll (groups : List String) (fetch : Except HttpErr Pending) (now : String) :
    PollOut :=
  match fetch with
  | Except.error _ => { events := [], acks := [] }
  | Except.ok data =>
    let r := pollRegs now groups groups data.registrations
    let currentGroups := r.hostGroups
    let m := pollMsgs currentGroups data.messages
    { events := r.events ++ m.events
      acks :=
        if m.ackIds.length > 0 ∨ r.ackIds.length > 0 then
          [{ conversationIds := r.ackIds, messageIds := m.ackIds }]
        else [] }

/-- The adapter's mutable lifecycle state (`connected`, `pollTimer`). -/
structure ChannelState where
  connected : Bool
  pollTimer : Option Unit
deriving DecidableEq, Repr

/-- State as the constructor leaves it. -/
def initialState : ChannelState :=
  { connected := false, pollTimer := none }

/-- `schedulePoll()`: returns at once when not connected, else arms the
timer. -/
def schedulePoll (s : ChannelState) : ChannelState :=
  if s.connected = false then s else { s with pollTimer := some () }

/-- `disconnect()`: clears the flag; clears the timer when armed. -/
def disconnect (s : ChannelState) : ChannelState :=
  { s with connected := false, pollTimer := none }

/-- Timer-machinery events, as for the repository file: the armed timer
fires (`poll().catch(...).finally(() => this.schedulePoll())`), or
`disconnect()` runs again. -/
inductive TimerAct where
  | fire
  | disc
deriving DecidableEq, Repr

/-- One step of the timer machinery. -/
def timerStep (s : ChannelState) : TimerAct → ChannelState
  | TimerAct.fire =>
    match s.pollTimer with
    | some _ => schedulePoll { s with pollTimer := none }
    | none => s
  | TimerAct.disc => disconnect s

end WebSkill

/-! ## Helper lemmas -/

/-- `jid.slice(4)` recovers the conversationId from a `web:`-prefixed
jid (`'web:'` has four characters). -/
theorem drop_four_web (x : String) : ("web:" ++ x).drop 4 = x := by
  rw [String.drop_eq]
  have h : ("web:" ++ x).data = "web:".data ++ x.data := String.data_append _ _
  rw [h]
  have h4 : ("web:".data).length = 4 := by decide
  rw [← h4, List.drop_left]

/-- The embedded `startsWith` agrees with the existence of a split. -/
theorem jsStartsWith_web_iff (jid : String) :
    jsStartsWith jid "web:" = true ↔ ∃ r, jid = "web:" ++ r := by
  unfold jsStartsWith
  rw [List.isPrefixOf_iff_prefix]
  constructor
  · rintro ⟨t, ht⟩
    exact ⟨⟨t⟩, String.ext (by rw [String.data_append, ← ht])⟩
  · rintro ⟨r, rfl⟩
    rw [String.data_append]
    exact ⟨r.data, rfl⟩

/-- The UUID model always renders a non-empty string. -/
theorem randomUUID_ne_empty (seed : Nat) : randomUUID seed ≠ "" := by
  intro h
  have hd : (randomUUID seed).data = ("" : String).data := by rw [h]
  simp only [randomUUID, String.data_append] at hd
  have hlen := congrArg List.length hd
  simp [hexN] at hlen

/-- Repository file: the registration loop acknowledges every incoming
conversationId, registered or not, in array order. -/
theorem WebTs.pollRegs_ackIds (now : String) (regs : List Registration) :
    ∀ groups : List String,
      (WebTs.pollRegs now groups regs).ackIds = regs.map (·.conversationId) := by
  induction regs with
  | nil => intro groups; rfl
  | cons reg rest ih =>
    intro groups
    by_cases h : ("web:" ++ reg.conversationId) ∈ groups <;>
      simp [WebTs.pollRegs, h, ih]

/-- Skill file: the registration loop acknowledges every incoming
conversationId, registered or not, in array order. -/
theorem WebSkill.pollRegs_ackIds_skill (now : String) (snapshot : List String)
    (regs : List Registration) :
    ∀ host : List String,
      (WebSkill.pollRegs now snapshot host regs).ackIds =
        regs.map (·.conversationId) := by
  induction regs with
  | nil => intro host; rfl
  | cons reg rest ih =>
    intro host
    by_cases h : ("web:" ++ reg.conversationId) ∈ snapshot <;>
      simp [WebSkill.pollRegs, h, ih]

/-- Repository file: a jid already present in the registry view is never
passed to `registerGroup` by the registration loop (the view only grows
as the loop registers new jids). -/
theorem WebTs.pollRegs_no_register (now jid : String) (g : RegisteredGroup)
    (regs : List Registration) :
    ∀ groups : List String, jid ∈ groups →
      Event.registerGroup jid g ∉ (WebTs.pollRegs now groups regs).events := by
  induction regs with
  | nil => intro groups _ hmem; simp [WebTs.pollRegs] at hmem
  | cons reg rest ih =>
    intro groups hg
    by_cases h : ("web:" ++ reg.conversationId) ∈ groups
    · simpa [WebTs.pollRegs, h] using ih groups hg
    · have hne : jid ≠ "web:" ++ reg.conversationId := by
        intro he; exact h (he ▸ hg)
      have hrest := ih (("web:" ++ reg.conversationId) :: groups)
        (List.mem_cons_of_mem _ hg)
      simp [WebTs.pollRegs, h, hostRegister, hne, hrest]

/-- Skill file: a jid present in the snapshot view is never passed to
`registerGroup` by the registration loop. -/
theorem WebSkill.pollRegs_no_register_skill (now jid : String) (snapshot : List String)
    (g : RegisteredGroup) (regs : List Registration) (hg : jid ∈ snapshot) :
    ∀ host : List String,
      Event.registerGroup jid g ∉ (WebSkill.pollRegs now snapshot host regs).events := by
  induction regs with
  | nil => intro host hmem; simp [WebSkill.pollRegs] at hmem
  | cons reg rest ih =>
    intro host
    by_cases h : ("web:" ++ reg.conversationId) ∈ snapshot
    · simpa [WebSkill.pollRegs, h] using ih host
    · have hne : jid ≠ "web:" ++ reg.conversationId := by
        intro he; exact h (he ▸ hg)
      have hrest := ih (("web:" ++ reg.conversationId) :: host)
      simp [WebSkill.pollRegs, h, hostRegister, hne, hrest]

/-- Repository file: the message loop never invokes `registerGroup`. -/
theorem WebTs.pollMsgs_no_register (jid : String) (g : RegisteredGroup) :
    ∀ msgs : List PendingMessage,
      Event.registerGroup jid g ∉ (WebTs.pollMsgs msgs).events := by
  intro msgs
  induction msgs with
  | nil => simp [WebTs.pollMsgs]
  | cons msg rest ih => simp [WebTs.pollMsgs, ih]

/-- Skill file: the message loop never invokes `registerGroup`. -/
theorem WebSkill.pollMsgs_no_register_skill (currentGroups : List String) (jid : String)
    (g : RegisteredGroup) :
    ∀ msgs : List PendingMessage,
      Event.registerGroup jid g ∉ (WebSkill.pollMsgs currentGroups msgs).events := by
  intro msgs
  induction msgs with
  | nil => simp [WebSkill.pollMsgs]
  | cons msg rest ih =>
    by_cases h : ("web:" ++ msg.conversationId) ∈ currentGroups <;>
      simp [WebSkill.pollMsgs, h, ih]

/-- Once dead (flag down, timer clear), the repository file's timer
machinery stays dead under any sequence of events. -/
theorem WebTs.foldl_timerStep_dead (acts : List WebTs.TimerAct) :
    acts.foldl WebTs.timerStep { polling := false, pollTimer := none } =
      { polling := false, pollTimer := none } := by
  induction acts with
  | nil => rfl
  | cons a rest ih =>
    cases a <;> simpa [WebTs.timerStep, WebTs.disconnect] using ih

/-- Once dead, the skill file's timer machinery stays dead under any
sequence of events. -/
theorem WebSkill.foldl_timerStep_dead_skill (acts : List WebSkill.TimerAct) :
    acts.foldl WebSkill.timerStep { connected := false, pollTimer := none } =
      { connected := false, pollTimer := none } := by
  induction acts with
  | nil => rfl
  | cons a rest ih =>
    cases a <;> simpa [WebSkill.timerStep, WebSkill.disconnect] using ih

/-- The resolved secret is empty exactly when both environment sources
are absent or empty. -/
theorem orElseStr_secret_empty_iff (eS pS : Option String) :
    orElseStr eS (orElseStr pS "") = "" ↔
      ((eS = none ∨ eS = some "") ∧ (pS = none ∨ pS = some "")) := by
  rcases eS with _ | s
  · rcases pS with _ | t
    · simp [orElseStr]
    · by_cases h : t = "" <;> simp [orElseStr, h]
  · rcases pS with _ | t
    · by_cases h : s = "" <;> simp [orElseStr, h]
    · by_cases h : s = "" <;> by_cases h2 : t = "" <;> simp [orElseStr, h, h2]

/-! ## Concrete fixtures (the spec's own test scenarios) -/

/-- The spec's concrete registration `{conversationId: "conv-abc", name:
"Main", folder: "web-conv-abc"}`. -/
def regConvAbc : Registration :=
  { conversationId := "conv-abc", name := "Main", folder := "web-conv-abc" }

/-- A pending batch announcing only `conv-abc`. -/
def pendingRegOnly : Pending :=
  { registrations := [regConvAbc], messages := [] }

/-- A pending message for a conversation absent from the registry. -/
def msgUnknownConv : PendingMessage :=
  { id := "msg-1", conversationId := "unknown-conv", senderName := some "You",
    content := "Hello", createdAt := "2026-02-27T10:00:00.000Z" }

/-- A pending batch holding only that message. -/
def pendingMsgOnly : Pending :=
  { registrations := [], messages := [msgUnknownConv] }

/-- A concrete clock instant. -/
def sampleInstant : DateTime :=
  { year := 2026, month := 2, day := 27, hour := 10, minute := 0, second := 0,
    millisecond := 0 }

/-! ## The claims -/

/-- C3: the adapter constructor (skill `web.ts`) throws exactly when the
mandatory shared secret is absent or empty in both environment sources,
so no adapter instance is produced; and this is the only error the
adapter raises — for every HTTP oracle, `sendMessage`, `setTyping`
and `connect` all resolve (`poll` and `disconnect` are total by the
shape of their embedding). -/
theorem mkWebChannel_requires_secret :
    ∀ envUrl procUrl envSecret procSecret : Option String,
      ((∃ msg, WebSkill.mkWebChannel envUrl procUrl envSecret procSecret =
          Except.error msg) ↔
        ((envSecret = none ∨ envSecret = some "") ∧
          (procSecret = none ∨ procSecret = some ""))) ∧
      (∀ (jid text : String) (seed : Nat) (t : DateTime)
        (deliver : DeliverBody → Except HttpErr Unit),
        (WebSkill.sendMessage jid text seed t deliver).2 = Except.ok ()) ∧
      (∀ (jid : String) (b : Bool) (post : TypingBody → Except HttpErr Unit),
        (WebSkill.setTyping jid b post).2 = Except.ok ()) ∧
      (∀ probe : Except HttpErr Unit, WebSkill.connect probe = (true, Except.ok ())) := by
  intro eU pU eS pS
  refine ⟨?_, ?_, ?_, ?_⟩
  · rw [← orElseStr_secret_empty_iff]
    constructor
    · rintro ⟨msg, hmsg⟩
      by_cases h : orElseStr eS (orElseStr pS "") = ""
      · exact h
      · simp [WebSkill.mkWebChannel, h] at hmsg
    · intro h
      exact ⟨"WEBUI_INTERNAL_SECRET must be set in .env",
        by simp [WebSkill.mkWebChannel, h]⟩
  · intro jid text seed t deliver
    cases h : deliver
      { id := randomUUID seed, conversationId := jid.drop 4,
        content := text, createdAt := toISOString t } <;>
      simp [WebSkill.sendMessage, h]
  · intro jid b post
    cases h : post { conversationId := jid.drop 4, isTyping := b } <;>
      simp [WebSkill.setTyping, h]
  · intro probe
    cases probe <;> rfl

/-- C4: for either implementation, when the `/api/internal/pending`
fetch fails (network error or non-2xx), `poll()` fires no registration,
metadata or message callback, issues no ack POST, and resolves (the
embedding returns a value, mirroring the `catch` that only logs). -/
theorem poll_fetch_failure_silent :
    ∀ (groups : List String) (now : String) (e : HttpErr),
      WebTs.poll groups (Except.error e) now = { events := [], acks := [] } ∧
      WebSkill.poll groups (Except.error e) now = { events := [], acks := [] } := by
  intro groups now e
  exact ⟨rfl, rfl⟩

/-- C6: at the end of a poll cycle (either implementation), exactly one
ack POST carrying both the conversationId list and the messageId list is
issued when at least one of the two is non-empty, and no ack call is
made when both are empty. -/
theorem ack_iff_something_processed :
    ∀ (groups : List String) (data : Pending) (now : String),
      (WebTs.poll groups (Except.ok data) now).acks =
        (if (WebTs.pollRegs now groups data.registrations).ackIds = [] ∧
            (WebTs.pollMsgs data.messages).ackIds = [] then []
         else
           [{ conversationIds := (WebTs.pollRegs now groups data.registrations).ackIds,
              messageIds := (WebTs.pollMsgs data.messages).ackIds }]) ∧
      (WebSkill.poll groups (Except.ok data) now).acks =
        (let r := WebSkill.pollRegs now groups groups data.registrations
         let m := WebSkill.pollMsgs r.hostGroups data.messages
         if r.ackIds = [] ∧ m.ackIds = [] then []
         else [{ conversationIds := r.ackIds, messageIds := m.ackIds }]) := by
  intro groups data now
  constructor
  · by_cases h1 : (WebTs.pollRegs now groups data.registrations).ackIds = [] <;>
      by_cases h2 : (WebTs.pollMsgs data.messages).ackIds = [] <;>
      simp [WebTs.poll, h1, h2, List.length_pos]
  · by_cases h1 : (WebSkill.pollRegs now groups groups data.registrations).ackIds = [] <;>
      by_cases h2 : (WebSkill.pollMsgs
        (WebSkill.pollRegs now groups groups data.registrations).hostGroups
        data.messages).ackIds = [] <;>
      simp [WebSkill.poll, h1, h2, List.length_pos]

/-- C8: for either implementation, `disconnect()` lowers the
connected/polling flag and clears any pending poll timer; it is
idempotent and safe before `connect()` (the embedding is total and
fixes the fresh state); and after it runs, no sequence of timer events
(timer firings with their `finally` reschedule, repeated disconnects)
ever arms the poll timer again. -/
theorem disconnect_stops_polling :
    ∀ (s : WebTs.ChannelState) (acts : List WebTs.TimerAct)
      (s' : WebSkill.ChannelState) (acts' : List WebSkill.TimerAct),
      WebTs.disconnect s = { polling := false, pollTimer := none } ∧
      WebTs.disconnect (WebTs.disconnect s) = WebTs.disconnect s ∧
      WebTs.disconnect WebTs.initialState = WebTs.initialState ∧
      (acts.foldl WebTs.timerStep (WebTs.disconnect s)).pollTimer = none ∧
      (acts.foldl WebTs.timerStep (WebTs.disconnect s)).polling = false ∧
      WebSkill.disconnect s' = { connected := false, pollTimer := none } ∧
      WebSkill.disconnect (WebSkill.disconnect s') = WebSkill.disconnect s' ∧
      WebSkill.disconnect WebSkill.initialState = WebSkill.initialState ∧
      (acts'.foldl WebSkill.timerStep (WebSkill.disconnect s')).pollTimer = none ∧
      (acts'.foldl WebSkill.timerStep (WebSkill.disconnect s')).connected = false := by
  intro s acts s' acts'
  have h1 : WebTs.disconnect s = { polling := false, pollTimer := none } := rfl
  have h2 : WebSkill.disconnect s' = { connected := false, pollTimer := none } := rfl
  refine ⟨h1, rfl, rfl, ?_, ?_, h2, rfl, rfl, ?_, ?_⟩
  · rw [h1, WebTs.foldl_timerStep_dead]
  · rw [h1, WebTs.foldl_timerStep_dead]
  · rw [h2, WebSkill.foldl_timerStep_dead_skill]
  · rw [h2, WebSkill.foldl_timerStep_dead_skill]

/-- C9: `ownsJid` is a pure predicate (a plain function of the jid
string, touching no oracle and no adapter state): it returns `true`
exactly for the strings of the form `web:` followed by a rest, and
`false` for every other string; both implementations define it
identically. -/
theorem ownsJid_true_iff_web_prefix :
    ∀ jid : String,
      (WebTs.ownsJid jid = true ↔ ∃ r, jid = "web:" ++ r) ∧
      WebSkill.ownsJid jid = WebTs.ownsJid jid := by
  intro jid
  exact ⟨jsStartsWith_web_iff jid, rfl⟩

/-- C5: in either implementation, a registration whose jid is already in
the registered-groups view when the batch is processed does not trigger
the registration callback, yet its conversationId is still carried by
the ack POST the cycle issues. -/
theorem already_registered_acked_without_callback :
    ∀ (now : String) (groups : List String) (data : Pending) (reg : Registration),
      reg ∈ data.registrations →
      ("web:" ++ reg.conversationId) ∈ groups →
      (∀ g : RegisteredGroup,
        Event.registerGroup ("web:" ++ reg.conversationId) g ∉
          (WebTs.poll groups (Except.ok data) now).events) ∧
      (∃ c m, (WebTs.poll groups (Except.ok data) now).acks =
          [{ conversationIds := c, messageIds := m }] ∧ reg.conversationId ∈ c) ∧
      (∀ g : RegisteredGroup,
        Event.registerGroup ("web:" ++ reg.conversationId) g ∉
          (WebSkill.poll groups (Except.ok data) now).events) ∧
      (∃ c m, (WebSkill.poll groups (Except.ok data) now).acks =
          [{ conversationIds := c, messageIds := m }] ∧ reg.conversationId ∈ c) := by
  intro now groups data reg hreg hjid
  have hcidA : reg.conversationId ∈ (WebTs.pollRegs now groups data.registrations).ackIds := by
    rw [WebTs.pollRegs_ackIds]
    exact List.mem_map_of_mem _ hreg
  have hcidB : reg.conversationId ∈
      (WebSkill.pollRegs now groups groups data.registrations).ackIds := by
    rw [WebSkill.pollRegs_ackIds_skill]
    exact List.mem_map_of_mem _ hreg
  have hposA : (WebTs.pollRegs now groups data.registrations).ackIds.length > 0 :=
    List.length_pos.mpr (List.ne_nil_of_mem hcidA)
  have hposB : (WebSkill.pollRegs now groups groups data.registrations).ackIds.length > 0 :=
    List.length_pos.mpr (List.ne_nil_of_mem hcidB)
  have hevA : (WebTs.poll groups (Except.ok data) now).events =
      (WebTs.pollRegs now groups data.registrations).events ++
        (WebTs.pollMsgs data.messages).events := rfl
  have hevB : (WebSkill.poll groups (Except.ok data) now).events =
      (WebSkill.pollRegs now groups groups data.registrations).events ++
        (WebSkill.pollMsgs
          (WebSkill.pollRegs now groups groups data.registrations).hostGroups
          data.messages).events := rfl
  refine ⟨?_, ?_, ?_, ?_⟩
  · intro g hmem
    rw [hevA, List.mem_append] at hmem
    rcases hmem with h | h
    · exact WebTs.pollRegs_no_register now _ g data.registrations groups hjid h
    · exact WebTs.pollMsgs_no_register _ g data.messages h
  · refine ⟨(WebTs.pollRegs now groups data.registrations).ackIds,
      (WebTs.pollMsgs data.messages).ackIds, ?_, hcidA⟩
    have : (WebTs.poll groups (Except.ok data) now).acks =
        if (WebTs.pollRegs now groups data.registrations).ackIds.length > 0 ∨
            (WebTs.pollMsgs data.messages).ackIds.length > 0 then
          [{ conversationIds := (WebTs.pollRegs now groups data.registrations).ackIds,
             messageIds := (WebTs.pollMsgs data.messages).ackIds }]
        else [] := rfl
    rw [this, if_pos (Or.inl hposA)]
  · intro g hmem
    rw [hevB, List.mem_append] at hmem
    rcases hmem with h | h
    · exact WebSkill.pollRegs_no_register_skill now _ groups g data.registrations hjid groups h
    · exact WebSkill.pollMsgs_no_register_skill _ _ g data.messages h
  · refine ⟨(WebSkill.pollRegs now groups groups data.registrations).ackIds,
      (WebSkill.pollMsgs
        (WebSkill.pollRegs now groups groups data.registrations).hostGroups
        data.messages).ackIds, ?_, hcidB⟩
    have : (WebSkill.poll groups (Except.ok data) now).acks =
        if (WebSkill.pollMsgs
              (WebSkill.pollRegs now groups groups data.registrations).hostGroups
              data.messages).ackIds.length > 0 ∨
            (WebSkill.pollRegs now groups groups data.registrations).ackIds.length > 0 then
          [{ conversationIds := (WebSkill.pollRegs now groups groups data.registrations).ackIds,
             messageIds := (WebSkill.pollMsgs
               (WebSkill.pollRegs now groups groups data.registrations).hostGroups
               data.messages).ackIds }]
        else [] := rfl
    rw [this, if_pos (Or.inr hposB)]

/-- Witness for C5 at the spec's own scenario: registry already holds
`web:conv-abc` and the batch re-announces `conv-abc`. -/
theorem already_registered_acked_without_callback_witness :
    regConvAbc ∈ pendingRegOnly.registrations ∧
    ("web:" ++ "conv-abc") ∈ ["web:conv-abc"] ∧
    (∃ c m, (WebTs.poll ["web:conv-abc"] (Except.ok pendingRegOnly)
        "2026-02-27T10:00:00.000Z").acks =
        [{ conversationIds := c, messageIds := m }] ∧ "conv-abc" ∈ c) :=
  ⟨by decide, by decide,
    (already_registered_acked_without_callback "2026-02-27T10:00:00.000Z"
      ["web:conv-abc"] pendingRegOnly regConvAbc (by decide) (by decide)).2.1⟩

/-- C7: for a `web:X` jid, `sendMessage` (either implementation) issues
exactly one POST to the deliver endpoint whose body has `conversationId`
equal to `X` with the prefix stripped, the freshly generated non-empty
id, `content` equal to the text, and the current clock instant rendered
as a well-formed ISO timestamp. -/
theorem sendMessage_deliver_payload :
    ∀ (x text : String) (seed : Nat) (t : DateTime)
      (deliver : DeliverBody → Except HttpErr Unit),
      validDate t = true →
      (WebTs.sendMessage ("web:" ++ x) text seed t deliver).1 =
        [{ id := randomUUID seed, conversationId := x, content := text,
           createdAt := toISOString t }] ∧
      (WebSkill.sendMessage ("web:" ++ x) text seed t deliver).1 =
        [{ id := randomUUID seed, conversationId := x, content := text,
           createdAt := toISOString t }] ∧
      randomUUID seed ≠ "" ∧
      WellFormedTimestamp (toISOString t) := by
  intro x text seed t deliver ht
  refine ⟨?_, ?_, randomUUID_ne_empty seed, ⟨t, ht, rfl⟩⟩
  · simp [WebTs.sendMessage, drop_four_web]
  · simp [WebSkill.sendMessage, drop_four_web]

/-- Witness for C7 at a concrete jid, text and clock instant. -/
theorem sendMessage_deliver_payload_witness :
    validDate sampleInstant = true ∧
    (WebTs.sendMessage ("web:" ++ "conv-123") "Hello from agent" 7 sampleInstant
        (fun _ => Except.ok ())).1 =
      [{ id := randomUUID 7, conversationId := "conv-123",
         content := "Hello from agent",
         createdAt := toISOString sampleInstant }] :=
  ⟨by decide,
    (sendMessage_deliver_payload "conv-123" "Hello from agent" 7 sampleInstant
      (fun _ => Except.ok ()) (by decide)).1⟩

/-- C10: for a jid outside the `web:` namespace, `pushContainerStatus`
and `pushWorkspaceSnapshot` return at once — no HTTP request, no error —
while `sendMessage` and `setTyping`, which do not re-validate, still
issue their POST with such a jid. -/
theorem push_ops_revalidate_namespace :
    ∀ (jid : String) (status : ContainerStatus) (err : Option String)
      (tree : List FileEntry) (text : String) (seed : Nat) (t : DateTime)
      (isTyping : Bool)
      (csPost : ContainerStatusBody → Except HttpErr Unit)
      (wsPost : WorkspaceSnapshotBody → Except HttpErr Unit)
      (deliver : DeliverBody → Except HttpErr Unit)
      (typingPost : TypingBody → Except HttpErr Unit),
      jsStartsWith jid "web:" = false →
      WebTs.pushContainerStatus jid status err csPost = ([], Except.ok ()) ∧
      WebTs.pushWorkspaceSnapshot jid tree wsPost = ([], Except.ok ()) ∧
      (WebTs.sendMessage jid text seed t deliver).1 ≠ [] ∧
      (WebTs.setTyping jid isTyping typingPost).1 ≠ [] := by
  intro jid status err tree text seed t isTyping csPost wsPost deliver typingPost h
  refine ⟨?_, ?_, ?_, ?_⟩
  · simp [WebTs.pushContainerStatus, h]
  · simp [WebTs.pushWorkspaceSnapshot, h]
  · simp [WebTs.sendMessage]
  · simp [WebTs.setTyping]

/-- Witness for C10 at a foreign-namespace jid. -/
theorem push_ops_revalidate_namespace_witness :
    jsStartsWith "slack:C123456" "web:" = false ∧
    WebTs.pushContainerStatus "slack:C123456" ContainerStatus.running none
        (fun _ => Except.ok ()) = ([], Except.ok ()) :=
  ⟨by decide,
    (push_ops_revalidate_namespace "slack:C123456" ContainerStatus.running none
      [] "x" 0 sampleInstant true (fun _ => Except.ok ())
      (fun _ => Except.ok ()) (fun _ => Except.ok ()) (fun _ => Except.ok ())
      (by decide)).1⟩

/-- C1 fails on `src/channels/web.ts`: its message loop forwards a
message for the unregistered conversation `unknown-conv` to `onMessage`
and acknowledges its id, although `web:unknown-conv` is absent from the
(empty) registered-groups view; the skill implementation of the same
batch skips the message and issues no ack, as the claim, the spec's
invariant and the package's unit test demand. -/
theorem poll_forwards_unregistered_message :
    WebTs.poll [] (Except.ok pendingMsgOnly) "2026-02-27T10:00:05.000Z" =
      { events := [Event.onMessage "web:unknown-conv"
                    { id := "msg-1", chat_jid := "web:unknown-conv",
                      sender := "user@" ++ "web:unknown-conv", sender_name := "You",
                      content := "Hello", timestamp := "2026-02-27T10:00:00.000Z",
                      is_from_me := false, is_bot_message := none }],
        acks := [{ conversationIds := [], messageIds := ["msg-1"] }] } ∧
    WebSkill.poll [] (Except.ok pendingMsgOnly) "2026-02-27T10:00:05.000Z" =
      { events := [], acks := [] } := by
  constructor <;> decide

/-- C2 fails on `src/channels/web.ts`: `sendMessage` has no
`try`/`catch` around its deliver POST, so a non-2xx response propagates
to the caller; the skill implementation catches the same failure and
resolves, as the claim, the spec and the package's unit test demand. -/
theorem sendMessage_propagates_deliver_failure :
    (WebTs.sendMessage "web:conv-123" "hello" 0 sampleInstant
        (fun _ => Except.error (HttpErr.status 500))).2 =
      Except.error (HttpErr.status 500) ∧
    (WebSkill.sendMessage "web:conv-123" "hello" 0 sampleInstant
        (fun _ => Except.error (HttpErr.status 500))).2 = Except.ok () :=
  ⟨rfl, rfl⟩

end Nanoclaw
